import Mathlib

/-
Verification development for the movie2manual repository.

Shallow embedding of the coordinate-transform and validation core:
  - src/utils/coord_utils.py   (CoordinateTransform, AnnotationValidator)
  - src/utils/text_parser.py   (StepSchemaValidator, TimestampChecker)
  - src/ui/canvas_component.py (GeometryEditorAdapter reconciliation guard)

Python JSON values are modelled by the inductive type `Json`; Python floats
are modelled by exact rationals (the validators only compare and copy
numbers, they never perform lossy float arithmetic on them); Python's
`bool` is a subclass of `int`, which the `isinstance` helpers reproduce.
Fallible Python functions (raise) are modelled with `Except`.
-/

set_option maxHeartbeats 1000000

namespace M2M

/-- Json models a parsed Python JSON value (the result of json.loads), with
Python bools kept distinct from ints so that Python's bool-is-int subtyping
can be reproduced explicitly in the isinstance helpers. -/
inductive Json where
  | null : Json
  | bool : Bool → Json
  | int : Int → Json
  | num : ℚ → Json
  | str : String → Json
  | arr : List Json → Json
  | obj : List (String × Json) → Json

/-- Lookup of a key in an association list modelling a Python dict
(first binding wins; json.loads never produces duplicate keys). -/
def lookup? : List (String × Json) → String → Option Json
  | [], _ => none
  | (k', v) :: rest, k => if k' = k then some v else lookup? rest k

/-- Python `k in d` membership test. -/
def hasKey (kvs : List (String × Json)) (k : String) : Bool :=
  (lookup? kvs k).isSome

/-- Python dict assignment `d[k] = v`: replaces the value in place when the
key exists (insertion order preserved), appends otherwise. -/
def setKey : List (String × Json) → String → Json → List (String × Json)
  | [], k, v => [(k, v)]
  | (k', v') :: rest, k, v =>
    if k' = k then (k, v) :: rest else (k', v') :: setKey rest k v

/-- Python `d.get(k)`: the stored value, or None when the key is absent.
A stored JSON null and an absent key both come back as Python None. -/
def pyGet (kvs : List (String × Json)) (k : String) : Json :=
  match lookup? kvs k with
  | some v => v
  | none => Json.null

def Json.isNull : Json → Bool
  | .null => true
  | _ => false

def Json.isStr : Json → Bool
  | .str _ => true
  | _ => false

def Json.isDict : Json → Bool
  | .obj _ => true
  | _ => false

/-- Python `isinstance(v, int)`; true for bools as well (bool is a subclass
of int in Python). -/
def isInstInt : Json → Bool
  | .int _ => true
  | .bool _ => true
  | _ => false

/-- Python `isinstance(v, (int, float))`; true for bools as well. -/
def isInstNumber : Json → Bool
  | .int _ => true
  | .bool _ => true
  | .num _ => true
  | _ => false

/-- Numeric value of an int-like Python value (True == 1, False == 0). -/
def toIntVal : Json → Int
  | .int n => n
  | .bool b => if b then 1 else 0
  | _ => 0

/-- Numeric value of a number-like Python value, as an exact rational. -/
def toQ : Json → ℚ
  | .int n => (n : ℚ)
  | .bool b => if b then 1 else 0
  | .num q => q
  | _ => 0

/-- Python `type(v).__name__`. -/
def pyTypeName : Json → String
  | .null => "NoneType"
  | .bool _ => "bool"
  | .int _ => "int"
  | .num _ => "float"
  | .str _ => "str"
  | .arr _ => "list"
  | .obj _ => "dict"

/-- Rendering of a Python float, as produced by str(); exact only for
integral values, which are the only ones the proved statements evaluate. -/
def numStr (q : ℚ) : String :=
  if q.den = 1 then toString q.num ++ ".0"
  else toString q.num ++ "/" ++ toString q.den

mutual

/-- Python `str(v)` (model; container rendering approximates repr). -/
def pyStr : Json → String
  | .null => "None"
  | .bool b => if b then "True" else "False"
  | .int n => toString n
  | .num q => numStr q
  | .str s => s
  | .arr xs => "[" ++ pyStrList xs ++ "]"
  | .obj kvs => "\x7b" ++ pyStrObj kvs ++ "\x7d"

/-- Comma-separated repr of list elements (model of Python list repr). -/
def pyStrList : List Json → String
  | [] => ""
  | [x] => pyRepr x
  | x :: rest => pyRepr x ++ ", " ++ pyStrList rest

/-- Comma-separated repr of dict items (model of Python dict repr). -/
def pyStrObj : List (String × Json) → String
  | [] => ""
  | [(k, v)] => "'" ++ k ++ "': " ++ pyRepr v
  | (k, v) :: rest => "'" ++ k ++ "': " ++ pyRepr v ++ ", " ++ pyStrObj rest

/-- Python `repr(v)` (model; strings are quoted, unlike str). -/
def pyRepr : Json → String
  | .str s => "'" ++ s ++ "'"
  | .null => "None"
  | .bool b => if b then "True" else "False"
  | .int n => toString n
  | .num q => numStr q
  | .arr xs => "[" ++ pyStrList xs ++ "]"
  | .obj kvs => "\x7b" ++ pyStrObj kvs ++ "\x7d"

end

/-
Embedding of src/utils/coord_utils.py.
-/

/-- PyErr models the exceptions raised by coord_utils: the two ValueError
families the spec names InvalidDimension and OutOfRange, the ValueError on a
wrong-length coordinate tuple, and ZeroDivisionError from a bare division. -/
inductive PyErr where
  | invalidDimension : String → PyErr
  | outOfRange : String → PyErr
  | badLength : String → PyErr
  | zeroDivision : PyErr
deriving Repr, DecidableEq

/-- Python 3 round() on the model's exact rationals: round half to even. -/
def pyRound (q : ℚ) : ℤ :=
  let f := ⌊q⌋
  let r := q - f
  if r < 1/2 then f
  else if 1/2 < r then f + 1
  else if f % 2 = 0 then f else f + 1

/-- Accepted annotation types (coord_utils.VALID_ANNOTATION_TYPES). -/
def VALID_ANNOTATION_TYPES : List String := ["rect", "line", "polygon"]

/-- Rendering of VALID_ANNOTATION_TYPES in error messages (model of the
Python set repr; CPython's set iteration order is hash-dependent). -/
def validTypesStr : String := "\x7b'rect', 'line', 'polygon'\x7d"

/-- coord_utils.pixel_to_relative: divides each axis after rejecting
non-positive canvas dimensions. -/
def pixel_to_relative (x y : ℚ) (canvas_width canvas_height : ℤ) :
    Except PyErr (ℚ × ℚ) :=
  if canvas_width ≤ 0 ∨ canvas_height ≤ 0 then
    .error (.invalidDimension "Canvas width and height must be positive values")
  else
    .ok (x / canvas_width, y / canvas_height)

/-- coord_utils.relative_to_pixel: checks dimensions, then the [0,1] range,
then multiplies and rounds each axis. -/
def relative_to_pixel (rx ry : ℚ) (video_width video_height : ℤ) :
    Except PyErr (ℤ × ℤ) :=
  if video_width ≤ 0 ∨ video_height ≤ 0 then
    .error (.invalidDimension "Video width and height must be positive values")
  else if ¬(0 ≤ rx ∧ rx ≤ 1) ∨ ¬(0 ≤ ry ∧ ry ≤ 1) then
    .error (.outOfRange "Relative coordinates must be between 0.0 and 1.0")
  else
    .ok (pyRound (video_width * rx), pyRound (video_height * ry))

/-- coord_utils.rect_to_relative: checks only the tuple length, then divides
each coordinate directly (ZeroDivisionError when a dimension is zero; no
positivity or range check). -/
def rect_to_relative (rect_coords : List ℚ) (canvas_width canvas_height : ℤ) :
    Except PyErr (ℚ × ℚ × ℚ × ℚ) :=
  match rect_coords with
  | [x1, y1, x2, y2] =>
    if canvas_width = 0 ∨ canvas_height = 0 then .error .zeroDivision
    else .ok (x1 / canvas_width, y1 / canvas_height, x2 / canvas_width, y2 / canvas_height)
  | _ => .error (.badLength "rect_coords must be a list of 4 integers [x1, y1, x2, y2]")

/-- coord_utils.rect_to_pixel: checks only the tuple length, then multiplies
and rounds each coordinate directly (no dimension or range check). -/
def rect_to_pixel (rel_coords : List ℚ) (video_width video_height : ℤ) :
    Except PyErr (ℤ × ℤ × ℤ × ℤ) :=
  match rel_coords with
  | [rx1, ry1, rx2, ry2] =>
    .ok (pyRound (video_width * rx1), pyRound (video_height * ry1),
         pyRound (video_width * rx2), pyRound (video_height * ry2))
  | _ => .error (.badLength "rel_coords must be a tuple of 4 floats (rx1, ry1, rx2, ry2)")

/-- coord_utils.arrow_to_relative: same body as rect_to_relative up to the
length-error message. -/
def arrow_to_relative (arrow_coords : List ℚ) (canvas_width canvas_height : ℤ) :
    Except PyErr (ℚ × ℚ × ℚ × ℚ) :=
  match arrow_coords with
  | [x1, y1, x2, y2] =>
    if canvas_width = 0 ∨ canvas_height = 0 then .error .zeroDivision
    else .ok (x1 / canvas_width, y1 / canvas_height, x2 / canvas_width, y2 / canvas_height)
  | _ => .error (.badLength "arrow_coords must be a list of 4 integers [x1, y1, x2, y2]")

/-- coord_utils.arrow_to_pixel: same body as rect_to_pixel. -/
def arrow_to_pixel (rel_coords : List ℚ) (video_width video_height : ℤ) :
    Except PyErr (ℤ × ℤ × ℤ × ℤ) :=
  match rel_coords with
  | [rx1, ry1, rx2, ry2] =>
    .ok (pyRound (video_width * rx1), pyRound (video_height * ry1),
         pyRound (video_width * rx2), pyRound (video_height * ry2))
  | _ => .error (.badLength "rel_coords must be a tuple of 4 floats (rx1, ry1, rx2, ry2)")

/-- coord_utils._is_valid_relative_value: a number (bool included) in [0,1]. -/
def _is_valid_relative_value (v : Json) : Bool :=
  isInstNumber v && decide (0 ≤ toQ v) && decide (toQ v ≤ 1)

/-- Loop body of validate_rel_coords for rect/line: walk the flat coordinate
list, short-circuiting at the first non-number or out-of-range element. -/
def checkFlat (i : Nat) : List Json → Bool × String
  | [] => (true, "")
  | v :: rest =>
    if ¬ isInstNumber v then
      (false, "Coordinate at index " ++ toString i ++ " must be a number, got " ++ pyTypeName v)
    else if ¬ _is_valid_relative_value v then
      (false, "Coordinate at index " ++ toString i ++ " must be between 0.0 and 1.0, got " ++ pyStr v)
    else checkFlat (i + 1) rest

/-- Inner loop of validate_rel_coords for one polygon point: walk the point's
two coordinates, short-circuiting as in the flat case. -/
def checkPointVals (i : Nat) (j : Nat) : List Json → Bool × String
  | [] => (true, "")
  | v :: rest =>
    if ¬ isInstNumber v then
      (false, "Coordinate at point " ++ toString i ++ ", index " ++ toString j ++
        " must be a number, got " ++ pyTypeName v)
    else if ¬ _is_valid_relative_value v then
      (false, "Coordinate at point " ++ toString i ++ ", index " ++ toString j ++
        " must be between 0.0 and 1.0, got " ++ pyStr v)
    else checkPointVals i (j + 1) rest

/-- Outer loop of validate_rel_coords for polygon: per point, check it is a
2-element sequence, then check its coordinate values. -/
def checkPoly (i : Nat) : List Json → Bool × String
  | [] => (true, "")
  | p :: rest =>
    match p with
    | .arr pts =>
      if pts.length ≠ 2 then
        (false, "Point at index " ++ toString i ++ " must have exactly 2 coordinates, got " ++
          toString pts.length)
      else
        let inner := checkPointVals i 0 pts
        if ¬ inner.1 then inner else checkPoly (i + 1) rest
    | _ =>
      (false, "Point at index " ++ toString i ++ " must be a list or tuple, got " ++ pyTypeName p)

/-- coord_utils.validate_rel_coords: kind check, sequence check, then the
kind-specific structural and range checks with short-circuit messages. -/
def validate_rel_coords (annotation_type : String) (coords : Json) : Bool × String :=
  if annotation_type ∉ VALID_ANNOTATION_TYPES then
    (false, "Invalid annotation type: " ++ annotation_type ++ ". Must be one of " ++ validTypesStr)
  else
    match coords with
    | .arr cs =>
      if annotation_type = "rect" ∨ annotation_type = "line" then
        if cs.length ≠ 4 then
          (false, annotation_type ++ " requires exactly 4 coordinates, got " ++ toString cs.length)
        else checkFlat 0 cs
      else if annotation_type = "polygon" then
        if cs.length < 3 then
          (false, "polygon requires at least 3 points, got " ++ toString cs.length)
        else checkPoly 0 cs
      else
        (false, "Unknown annotation type: " ++ annotation_type)
    | _ =>
      (false, "coords must be a list or tuple, got " ++ pyTypeName coords)

/-
Embedding of src/utils/text_parser.py.
-/

/-- ValidationResult from text_parser: ordered error and warning lists plus
the cleaned data payload (is_valid holds iff the error list is empty). -/
structure VRes where
  errors : List String
  warnings : List String
  data : List (String × Json)

def VRes.is_valid (r : VRes) : Bool := r.errors.isEmpty

/-- Accumulator of the per-step loop in validate_gemini_json: the seen_ids
set, the validated_steps list, and the result's error/warning lists. -/
structure StepAcc where
  seen : List Int
  validated : List Json
  errors : List String
  warnings : List String

/-- Message prefix "steps[idx] (id=...)" used by the per-step messages. -/
def stepTag (idx : Nat) (sid : Json) : String :=
  "steps[" ++ toString idx ++ "] (id=" ++ pyStr sid ++ ")"

/-- Message prefix for per-annotation messages in validate_saved_json. -/
def annTag (idx : Nat) (sid : Json) (annIdx : Nat) : String :=
  stepTag idx sid ++ ": annotations[" ++ toString annIdx ++ "]"

/-- Title check of the per-step loop in validate_gemini_json: coerce a
present non-string title to its str() with a buffered warning, default an
absent title to the empty string with no warning. -/
def titlePass (idx : Nat) (sid : Json) (kvs : List (String × Json)) :
    List (String × Json) × List String :=
  match lookup? kvs "title" with
  | some t =>
    if ¬ t.isStr then
      (setKey kvs "title" (.str (pyStr t)),
       [stepTag idx sid ++ ": title は文字列である必要があります"])
    else (kvs, [])
  | none => (setKey kvs "title" (.str ""), [])

/-- Description check of the per-step loop, run after the title check on
its output, appending to the buffered warnings. -/
def descPass (idx : Nat) (sid : Json) (p : List (String × Json) × List String) :
    List (String × Json) × List String :=
  match lookup? p.1 "description" with
  | some d =>
    if ¬ d.isStr then
      (setKey p.1 "description" (.str (pyStr d)),
       p.2 ++ [stepTag idx sid ++ ": description は文字列である必要があります"])
    else p
  | none => (setKey p.1 "description" (.str ""), p.2)

/-- Annotations default of the per-step loop: an absent annotations field
becomes the empty list, silently. -/
def annotationsDefault (kvs : List (String × Json)) : List (String × Json) :=
  if ¬ hasKey kvs "annotations" then setKey kvs "annotations" (.arr []) else kvs

/-- Tail of the per-step loop in validate_gemini_json, after the id and
timestamp checks passed: title/description defaulting or coercion (with
buffered warnings, title first) and the annotations default. -/
def cleanStepFields (idx : Nat) (sid : Json) (kvs : List (String × Json)) :
    List (String × Json) × List String :=
  let d := descPass idx sid (titlePass idx sid kvs)
  (annotationsDefault d.1, d.2)

/-- One iteration of the per-step loop of validate_gemini_json: skip the
step with a fatal error on a bad id or timestamp (the id, when valid, is
already recorded in seen_ids before the timestamp checks), warn on a
timestamp beyond the supplied duration, then clean the remaining fields. -/
def processStep (vd : Option ℚ) (idx : Nat) (acc : StepAcc) (step : Json) : StepAcc :=
  match step with
  | .obj kvs =>
    match lookup? kvs "id" with
    | none =>
      { acc with errors := acc.errors ++
          ["steps[" ++ toString idx ++ "]: id フィールドが存在しません"] }
    | some sid =>
      if ¬ (isInstInt sid = true ∧ 1 ≤ toIntVal sid) then
        { acc with errors := acc.errors ++
            ["steps[" ++ toString idx ++ "]: id は1以上の整数である必要があります（現在値: " ++
             pyStr sid ++ "）"] }
      else if toIntVal sid ∈ acc.seen then
        { acc with errors := acc.errors ++
            ["steps[" ++ toString idx ++ "]: id=" ++ pyStr sid ++ " が重複しています"] }
      else
        let seen' := acc.seen ++ [toIntVal sid]
        match lookup? kvs "timestamp" with
        | none =>
          { acc with seen := seen', errors := acc.errors ++
              [stepTag idx sid ++ ": timestamp フィールドが存在しません"] }
        | some ts =>
          if ¬ isInstNumber ts = true then
            { acc with seen := seen', errors := acc.errors ++
                [stepTag idx sid ++ ": timestamp は数値である必要があります"] }
          else if toQ ts < 0 then
            { acc with seen := seen', errors := acc.errors ++
                [stepTag idx sid ++ ": timestamp は0以上である必要があります（現在値: " ++
                 pyStr ts ++ "）"] }
          else
            let durW : List String :=
              match vd with
              | some d =>
                if toQ ts > d then
                  [stepTag idx sid ++ ": timestamp (" ++ pyStr ts ++ "秒) が動画長 (" ++
                   numStr d ++ "秒) を超えています"]
                else []
              | none => []
            let cleaned := cleanStepFields idx sid kvs
            { acc with seen := seen',
                       warnings := acc.warnings ++ durW ++ cleaned.2,
                       validated := acc.validated ++ [.obj cleaned.1] }
  | _ =>
    { acc with errors := acc.errors ++
        ["steps[" ++ toString idx ++ "]: ステップはオブジェクトである必要があります"] }

/-- The per-step loop of validate_gemini_json from a given index onward. -/
def processStepsFrom (vd : Option ℚ) (idx : Nat) (acc : StepAcc) : List Json → StepAcc
  | [] => acc
  | s :: rest => processStepsFrom vd (idx + 1) (processStep vd idx acc s) rest

/-- text_parser.validate_gemini_json (Tier A): default project_name and
video_path, require a list-typed steps field, then run the per-step loop. -/
def validate_gemini_json (data : List (String × Json)) (video_duration : Option ℚ) : VRes :=
  let pnOk := match lookup? data "project_name" with
    | some (.str _) => true
    | _ => false
  let d1 := if pnOk then data else setKey data "project_name" (.str "無題のプロジェクト")
  let w1 : List String :=
    if pnOk then [] else ["project_name が欠落しています。「無題のプロジェクト」で補完します"]
  let vpOk := match lookup? data "video_path" with
    | some (.str _) => true
    | _ => false
  let d2 := if vpOk then d1 else setKey d1 "video_path" (.str "")
  match lookup? data "steps" with
  | none => { errors := ["steps 配列が存在しません"], warnings := w1, data := d2 }
  | some stepsJ =>
    match stepsJ with
    | .arr steps =>
      let w2 := if steps.isEmpty then w1 ++ ["steps 配列が空です"] else w1
      let acc := processStepsFrom video_duration 0 ⟨[], [], [], []⟩ steps
      { errors := acc.errors,
        warnings := w2 ++ acc.warnings,
        data := setKey d2 "steps" (.arr acc.validated) }
    | _ => { errors := ["steps はリストである必要があります"], warnings := w1, data := d2 }

/-- text_parser._create_default_metadata, with the clock passed in. -/
def _create_default_metadata (now : String) : Json :=
  .obj [("created_at", .str now), ("modified_at", .str now), ("app_version", .str "1.0.0")]

/-- One iteration of the per-annotation loop of validate_saved_json: drop a
non-object element, a missing or invalid type, any polygon, a missing
rel_coords, or rel_coords rejected by validate_rel_coords — each with a
warning — and keep the annotation unchanged otherwise. -/
def processAnn (idx : Nat) (sid : Json) (annIdx : Nat) (a : Json) : Option Json × List String :=
  match a with
  | .obj akvs =>
    match lookup? akvs "type" with
    | none => (none, [annTag idx sid annIdx ++ " に type がありません。スキップします"])
    | some tj =>
      match tj with
      | .str t =>
        if t ∉ VALID_ANNOTATION_TYPES then
          (none, [annTag idx sid annIdx ++ " の type '" ++ t ++ "' は無効です。スキップします"])
        else if t = "polygon" then
          (none, [annTag idx sid annIdx ++ " の polygon 注釈はサポート対象外のためスキップします"])
        else
          match lookup? akvs "rel_coords" with
          | none =>
            (none, [annTag idx sid annIdx ++ " に rel_coords がありません。スキップします"])
          | some rc =>
            let v := validate_rel_coords t rc
            if ¬ v.1 then
              (none, [annTag idx sid annIdx ++ " の rel_coords が無効です: " ++ v.2 ++
                      "。スキップします"])
            else (some a, [])
      | _ =>
        (none, [annTag idx sid annIdx ++ " の type '" ++ pyStr tj ++ "' は無効です。スキップします"])
  | _ => (none, [annTag idx sid annIdx ++ " はオブジェクトである必要があります。スキップします"])

/-- The per-annotation loop of validate_saved_json from a given index on:
kept annotations in order plus the warnings in encounter order. -/
def processAnns (idx : Nat) (sid : Json) (annIdx : Nat) : List Json → List Json × List String
  | [] => ([], [])
  | a :: rest =>
    let r := processAnn idx sid annIdx a
    let rs := processAnns idx sid (annIdx + 1) rest
    (r.1.toList ++ rs.1, r.2 ++ rs.2)

/-- Per-step annotations validation of validate_saved_json: default a missing
annotations field to [], replace a non-list annotations field by [] with a
fatal error, and otherwise filter the list through the annotation loop.
Tier A guarantees every validated step is an object carrying an id. -/
def processSavedStep (idx : Nat) (step : Json) : Json × List String × List String :=
  match step with
  | .obj kvs =>
    let sid := pyGet kvs "id"
    match lookup? kvs "annotations" with
    | none => (.obj (setKey kvs "annotations" (.arr [])), [], [])
    | some (.arr anns) =>
      let r := processAnns idx sid 0 anns
      (.obj (setKey kvs "annotations" (.arr r.1)), [], r.2)
    | some _ =>
      (.obj (setKey kvs "annotations" (.arr [])),
       [stepTag idx sid ++ ": annotations はリストである必要があります"], [])
  | _ => (step, [], [])

/-- The per-step annotations loop of validate_saved_json. -/
def processSavedSteps (idx : Nat) : List Json → List Json × List String × List String
  | [] => ([], [], [])
  | s :: rest =>
    let r := processSavedStep idx s
    let rs := processSavedSteps (idx + 1) rest
    (r.1 :: rs.1, r.2.1 ++ rs.2.1, r.2.2 ++ rs.2.2)

/-- text_parser.validate_saved_json (Tier B): run Tier A and return its
result unchanged when it is invalid; otherwise check video_info and
metadata, then validate each step's annotations. The clock used for default
metadata is passed in as `now`. -/
def validate_saved_json (data : List (String × Json)) (video_duration : Option ℚ)
    (now : String) : VRes :=
  let r := validate_gemini_json data video_duration
  if ¬ r.is_valid then r
  else
    let viStep :=
      match lookup? data "video_info" with
      | some vi =>
        (setKey r.data "video_info" vi,
         if ¬ vi.isNull ∧ ¬ vi.isDict then
           ["video_info はオブジェクトまたはnullである必要があります"]
         else [])
      | none => (setKey r.data "video_info" .null, [])
    let mdStep :=
      match lookup? data "metadata" with
      | some m =>
        if ¬ m.isDict then
          (setKey viStep.1 "metadata" (_create_default_metadata now),
           ["metadata はオブジェクトである必要があります。無視します"])
        else (setKey viStep.1 "metadata" m, [])
      | none => (setKey viStep.1 "metadata" (_create_default_metadata now), [])
    let steps := match lookup? mdStep.1 "steps" with
      | some (.arr s) => s
      | _ => []
    let sres := processSavedSteps 0 steps
    { errors := r.errors ++ viStep.2 ++ sres.2.1,
      warnings := r.warnings ++ mdStep.2 ++ sres.2.2,
      data := setKey mdStep.1 "steps" (.arr sres.1) }

/-- text_parser.validate_all_timestamps: collect, in input order, the id of
every dict step whose `id` and `timestamp` both come back non-None from
dict.get and whose timestamp is a number exceeding the duration. -/
def validate_all_timestamps (steps : List Json) (duration : ℚ) : List Json :=
  match steps with
  | [] => []
  | s :: rest =>
    let tailIds := validate_all_timestamps rest duration
    match s with
    | .obj kvs =>
      let sid := pyGet kvs "id"
      let ts := pyGet kvs "timestamp"
      if sid.isNull ∨ ts.isNull then tailIds
      else if isInstNumber ts = true ∧ toQ ts > duration then sid :: tailIds
      else tailIds
    | _ => tailIds

/-
Embedding of the reconciliation guard of AnnotationCanvas.render
(src/ui/canvas_component.py, round-trip guard).
-/

/-- Round-trip guard from AnnotationCanvas.render: when the freshly parsed
annotation list is strictly longer than the stored one, keep the stored
annotations and append only the parsed entries beyond the stored count;
otherwise return the stored annotations and discard the parsed list. -/
def reconcile_annotations (current_annotations new_annotations : List Json) : List Json :=
  if new_annotations.length > current_annotations.length then
    current_annotations ++ new_annotations.drop current_annotations.length
  else current_annotations

/-
Statement helper definitions (abbreviations used only in theorem
statements, spelling out the messages and per-element conditions of the
validators).
-/

/-- A polygon point as checkPoly accepts it: a 2-element sequence of
in-range numbers. -/
def goodPoint (p : Json) : Bool :=
  match p with
  | .arr pts => pts.length = 2 && pts.all (fun v => _is_valid_relative_value v)
  | _ => false

/-- Short-circuit message of checkFlat for the first failing flat
coordinate: the type message for a non-number, the range message for an
out-of-range number. -/
def flatBadMsg (i : Nat) (v : Json) : String :=
  if isInstNumber v then
    "Coordinate at index " ++ toString i ++ " must be between 0.0 and 1.0, got " ++ pyStr v
  else
    "Coordinate at index " ++ toString i ++ " must be a number, got " ++ pyTypeName v

/-- Short-circuit message of checkPointVals for the first failing
coordinate of a polygon point. -/
def pointBadMsg (i j : Nat) (v : Json) : String :=
  if isInstNumber v then
    "Coordinate at point " ++ toString i ++ ", index " ++ toString j ++
      " must be between 0.0 and 1.0, got " ++ pyStr v
  else
    "Coordinate at point " ++ toString i ++ ", index " ++ toString j ++
      " must be a number, got " ++ pyTypeName v

/-- Short-circuit message of checkPoly for the first failing polygon point:
the structural message for a non-sequence or wrong-arity point, and the
first failing coordinate's message otherwise. -/
def polyBadMsg (i : Nat) (p : Json) : String :=
  match p with
  | .arr pts =>
    if pts.length ≠ 2 then
      "Point at index " ++ toString i ++ " must have exactly 2 coordinates, got " ++
        toString pts.length
    else (checkPointVals i 0 pts).2
  | _ => "Point at index " ++ toString i ++ " must be a list or tuple, got " ++ pyTypeName p

/-- Steps list of a validation result's data payload. -/
def stepsOf (data : List (String × Json)) : List Json :=
  match lookup? data "steps" with
  | some (.arr s) => s
  | _ => []

/-- Annotations list of a step object. -/
def annsOf (s : Json) : List Json :=
  match s with
  | .obj kvs =>
    match lookup? kvs "annotations" with
    | some (.arr a) => a
    | _ => []
  | _ => []

/-- Whether an annotation object carries type "polygon". -/
def isPolygonAnn (a : Json) : Bool :=
  match a with
  | .obj kvs =>
    match lookup? kvs "type" with
    | some (.str t) => t = "polygon"
    | _ => false
  | _ => false

end M2M

/-
Basic lemmas about the embedding.
-/

namespace M2M

lemma lookup_setKey_self (kvs : List (String × Json)) (k : String) (v : Json) :
    lookup? (setKey kvs k v) k = some v := by
  induction kvs with
  | nil => simp [setKey, lookup?]
  | cons hd tl ih =>
    by_cases h : hd.1 = k
    · simp [setKey, lookup?, h]
    · simp [setKey, lookup?, h, ih]

lemma lookup_setKey_other (kvs : List (String × Json)) (k k' : String) (v : Json)
    (h : k' ≠ k) : lookup? (setKey kvs k v) k' = lookup? kvs k' := by
  induction kvs with
  | nil => simp [setKey, lookup?, Ne.symm h]
  | cons hd tl ih =>
    by_cases hk : hd.1 = k
    · simp [setKey, lookup?, hk, Ne.symm h]
    · by_cases hk' : hd.1 = k'
      · simp [setKey, lookup?, hk, hk', h]
      · simp [setKey, lookup?, hk, hk', ih]

lemma isInstNumber_of_valid {v : Json} (h : _is_valid_relative_value v = true) :
    isInstNumber v = true := by
  simp [_is_valid_relative_value, Bool.and_eq_true] at h
  exact h.1.1

lemma checkFlat_cons_good (i : Nat) (v : Json) (rest : List Json)
    (h : _is_valid_relative_value v = true) :
    checkFlat i (v :: rest) = checkFlat (i + 1) rest := by
  simp [checkFlat, isInstNumber_of_valid h, h]

lemma checkFlat_append_good (i : Nat) (pre rest : List Json)
    (h : ∀ u ∈ pre, _is_valid_relative_value u = true) :
    checkFlat i (pre ++ rest) = checkFlat (i + pre.length) rest := by
  induction pre generalizing i with
  | nil => simp
  | cons hd tl ih =>
    have hhd : _is_valid_relative_value hd = true := h hd (by simp)
    have htl : ∀ u ∈ tl, _is_valid_relative_value u = true := fun u hu => h u (by simp [hu])
    have hlen : i + (hd :: tl).length = (i + 1) + tl.length := by
      simp [List.length_cons]
      omega
    rw [List.cons_append, checkFlat_cons_good i hd (tl ++ rest) hhd, ih (i + 1) htl, hlen]

lemma checkFlat_ok_of_all (i : Nat) (xs : List Json)
    (h : ∀ u ∈ xs, _is_valid_relative_value u = true) :
    checkFlat i xs = (true, "") := by
  have := checkFlat_append_good i xs [] h
  simpa [checkFlat] using this

lemma checkFlat_bad_head (i : Nat) (v : Json) (rest : List Json)
    (h : _is_valid_relative_value v = false) :
    checkFlat i (v :: rest) = (false, flatBadMsg i v) := by
  by_cases hn : isInstNumber v = true
  · simp [checkFlat, hn, h, flatBadMsg]
  · simp [checkFlat, hn, flatBadMsg]

lemma checkFlat_fst_true_iff (i : Nat) (xs : List Json) :
    (checkFlat i xs).1 = true ↔ ∀ u ∈ xs, _is_valid_relative_value u = true := by
  induction xs generalizing i with
  | nil => simp [checkFlat]
  | cons v rest ih =>
    by_cases hv : _is_valid_relative_value v = true
    · rw [checkFlat_cons_good i v rest hv]
      rw [ih (i + 1)]
      simp [hv]
    · rw [checkFlat_bad_head i v rest (by simpa using hv)]
      simp
      intro hv2
      exact absurd hv2 hv

lemma checkFlat_eq_ok_iff (i : Nat) (xs : List Json) :
    checkFlat i xs = (true, "") ↔ ∀ u ∈ xs, _is_valid_relative_value u = true := by
  constructor
  · intro h
    have : (checkFlat i xs).1 = true := by rw [h]
    exact (checkFlat_fst_true_iff i xs).1 this
  · exact checkFlat_ok_of_all i xs

lemma checkPointVals_cons_good (i j : Nat) (v : Json) (rest : List Json)
    (h : _is_valid_relative_value v = true) :
    checkPointVals i j (v :: rest) = checkPointVals i (j + 1) rest := by
  simp [checkPointVals, isInstNumber_of_valid h, h]

lemma checkPointVals_bad_head (i j : Nat) (v : Json) (rest : List Json)
    (h : _is_valid_relative_value v = false) :
    checkPointVals i j (v :: rest) = (false, pointBadMsg i j v) := by
  by_cases hn : isInstNumber v = true
  · simp [checkPointVals, hn, h, pointBadMsg]
  · simp [checkPointVals, hn, pointBadMsg]

lemma checkPointVals_append_good (i j : Nat) (pre rest : List Json)
    (h : ∀ u ∈ pre, _is_valid_relative_value u = true) :
    checkPointVals i j (pre ++ rest) = checkPointVals i (j + pre.length) rest := by
  induction pre generalizing j with
  | nil => simp
  | cons hd tl ih =>
    have hhd : _is_valid_relative_value hd = true := h hd (by simp)
    have htl : ∀ u ∈ tl, _is_valid_relative_value u = true := fun u hu => h u (by simp [hu])
    have hlen : j + (hd :: tl).length = (j + 1) + tl.length := by
      simp [List.length_cons]
      omega
    rw [List.cons_append, checkPointVals_cons_good i j hd (tl ++ rest) hhd, ih (j + 1) htl, hlen]

lemma checkPointVals_ok_of_all (i j : Nat) (xs : List Json)
    (h : ∀ u ∈ xs, _is_valid_relative_value u = true) :
    checkPointVals i j xs = (true, "") := by
  have := checkPointVals_append_good i j xs [] h
  simpa [checkPointVals] using this

lemma checkPointVals_fst_true_iff (i j : Nat) (xs : List Json) :
    (checkPointVals i j xs).1 = true ↔ ∀ u ∈ xs, _is_valid_relative_value u = true := by
  induction xs generalizing j with
  | nil => simp [checkPointVals]
  | cons v rest ih =>
    by_cases hv : _is_valid_relative_value v = true
    · rw [checkPointVals_cons_good i j v rest hv]
      rw [ih (j + 1)]
      simp [hv]
    · rw [checkPointVals_bad_head i j v rest (by simpa using hv)]
      simp
      intro hv2
      exact absurd hv2 hv

lemma checkPoly_cons_good (i : Nat) (p : Json) (rest : List Json)
    (h : goodPoint p = true) :
    checkPoly i (p :: rest) = checkPoly (i + 1) rest := by
  match p with
  | .arr pts =>
    simp [goodPoint, Bool.and_eq_true, List.all_eq_true] at h
    have hin : checkPointVals i 0 pts = (true, "") :=
      checkPointVals_ok_of_all i 0 pts h.2
    simp [checkPoly, h.1, hin]
  | .null | .bool _ | .int _ | .num _ | .str _ | .obj _ => simp [goodPoint] at h

lemma checkPoly_bad_head (i : Nat) (p : Json) (rest : List Json)
    (h : goodPoint p = false) :
    checkPoly i (p :: rest) = (false, polyBadMsg i p) := by
  match p with
  | .arr pts =>
    by_cases hl : pts.length = 2
    · simp [goodPoint, hl, List.all_eq_true] at h
      obtain ⟨u, hu, hubad⟩ := h
      have hfst : (checkPointVals i 0 pts).1 = false := by
        rw [← Bool.not_eq_true, checkPointVals_fst_true_iff]
        intro hall
        exact absurd (hall u hu) (by simpa using hubad)
      have : checkPointVals i 0 pts = (false, (checkPointVals i 0 pts).2) := by
        rw [Prod.ext_iff]
        exact ⟨hfst, rfl⟩
      simp [checkPoly, hl, polyBadMsg, hfst]
      rw [this]
    · simp [checkPoly, hl, polyBadMsg]
  | .null | .bool _ | .int _ | .num _ | .str _ | .obj _ =>
    simp [checkPoly, polyBadMsg]

lemma checkPoly_append_good (i : Nat) (pre rest : List Json)
    (h : ∀ p ∈ pre, goodPoint p = true) :
    checkPoly i (pre ++ rest) = checkPoly (i + pre.length) rest := by
  induction pre generalizing i with
  | nil => simp
  | cons hd tl ih =>
    have hhd : goodPoint hd = true := h hd (by simp)
    have htl : ∀ p ∈ tl, goodPoint p = true := fun p hp => h p (by simp [hp])
    have hlen : i + (hd :: tl).length = (i + 1) + tl.length := by
      simp [List.length_cons]
      omega
    rw [List.cons_append, checkPoly_cons_good i hd (tl ++ rest) hhd, ih (i + 1) htl, hlen]

lemma checkPoly_ok_of_all (i : Nat) (xs : List Json)
    (h : ∀ p ∈ xs, goodPoint p = true) :
    checkPoly i xs = (true, "") := by
  have := checkPoly_append_good i xs [] h
  simpa [checkPoly] using this

lemma checkPoly_fst_true_iff (i : Nat) (xs : List Json) :
    (checkPoly i xs).1 = true ↔ ∀ p ∈ xs, goodPoint p = true := by
  induction xs generalizing i with
  | nil => simp [checkPoly]
  | cons p rest ih =>
    by_cases hp : goodPoint p = true
    · rw [checkPoly_cons_good i p rest hp]
      rw [ih (i + 1)]
      simp [hp]
    · rw [checkPoly_bad_head i p rest (by simpa using hp)]
      simp
      intro hp2
      exact absurd hp2 hp

lemma checkPoly_eq_ok_iff (i : Nat) (xs : List Json) :
    checkPoly i xs = (true, "") ↔ ∀ p ∈ xs, goodPoint p = true := by
  constructor
  · intro h
    have : (checkPoly i xs).1 = true := by rw [h]
    exact (checkPoly_fst_true_iff i xs).1 this
  · exact checkPoly_ok_of_all i xs

lemma titlePass_lookup_ne (idx : Nat) (sid : Json) (kvs : List (String × Json))
    (k : String) (hk : k ≠ "title") :
    lookup? (titlePass idx sid kvs).1 k = lookup? kvs k := by
  unfold titlePass
  rcases h : lookup? kvs "title" with _ | t
  · simp [lookup_setKey_other kvs "title" k _ hk]
  · by_cases hs : t.isStr
    · simp [hs]
    · simp [hs, lookup_setKey_other kvs "title" k _ hk]

lemma descPass_lookup_ne (idx : Nat) (sid : Json) (p : List (String × Json) × List String)
    (k : String) (hk : k ≠ "description") :
    lookup? (descPass idx sid p).1 k = lookup? p.1 k := by
  unfold descPass
  rcases h : lookup? p.1 "description" with _ | d
  · simp [lookup_setKey_other p.1 "description" k _ hk]
  · by_cases hs : d.isStr
    · simp [hs]
    · simp [hs, lookup_setKey_other p.1 "description" k _ hk]

lemma annotationsDefault_lookup_ne (kvs : List (String × Json)) (k : String)
    (hk : k ≠ "annotations") :
    lookup? (annotationsDefault kvs) k = lookup? kvs k := by
  unfold annotationsDefault
  by_cases h : hasKey kvs "annotations"
  · simp [h]
  · simp [h, lookup_setKey_other kvs "annotations" k _ hk]

lemma descPass_warn_mono (idx : Nat) (sid : Json) (p : List (String × Json) × List String)
    (w : String) (hw : w ∈ p.2) : w ∈ (descPass idx sid p).2 := by
  unfold descPass
  rcases h : lookup? p.1 "description" with _ | d
  · simpa using hw
  · by_cases hs : d.isStr
    · simpa [hs] using hw
    · simp [hs]
      exact Or.inl hw

/-
Claim theorems.
-/

/-- C3: for every pixel point (x, y) inside a positive canvas w × h, the
composition relative_to_pixel ∘ pixel_to_relative succeeds and recovers
(round x, round y) within one pixel on each axis. -/
theorem C3_pixel_relative_round_trip (x y : ℚ) (w h : ℤ)
    (hw : 0 < w) (hh : 0 < h) (hx0 : 0 ≤ x) (hxw : x ≤ (w : ℚ))
    (hy0 : 0 ≤ y) (hyh : y ≤ (h : ℚ)) :
    ∃ rx ry px py,
      pixel_to_relative x y w h = .ok (rx, ry) ∧
      relative_to_pixel rx ry w h = .ok (px, py) ∧
      |px - pyRound x| ≤ 1 ∧ |py - pyRound y| ≤ 1 := by
  have hwq : (0 : ℚ) < (w : ℚ) := by exact_mod_cast hw
  have hhq : (0 : ℚ) < (h : ℚ) := by exact_mod_cast hh
  have hrx0 : (0 : ℚ) ≤ x / w := div_nonneg hx0 hwq.le
  have hrx1 : x / w ≤ 1 := (div_le_one hwq).2 hxw
  have hry0 : (0 : ℚ) ≤ y / h := div_nonneg hy0 hhq.le
  have hry1 : y / h ≤ 1 := (div_le_one hhq).2 hyh
  refine ⟨x / w, y / h, pyRound x, pyRound y, ?_, ?_, by simp, by simp⟩
  · simp [pixel_to_relative, not_le.2 hw, not_le.2 hh]
  · have hxx : (w : ℚ) * (x / w) = x := by field_simp
    have hyy : (h : ℚ) * (y / h) = y := by field_simp
    simp [relative_to_pixel, not_le.2 hw, not_le.2 hh, hrx0, hrx1, hry0, hry1, hxx, hyy]

/-- Witness for C3 at (x, y) = (3, 4) on a 10 × 5 canvas. -/
theorem C3_pixel_relative_round_trip_witness :
    ∃ rx ry px py,
      pixel_to_relative 3 4 10 5 = .ok (rx, ry) ∧
      relative_to_pixel rx ry 10 5 = .ok (px, py) ∧
      |px - pyRound 3| ≤ 1 ∧ |py - pyRound 4| ≤ 1 :=
  C3_pixel_relative_round_trip 3 4 10 5 (by decide) (by decide)
    (by norm_num) (by norm_num) (by norm_num) (by norm_num)

/-- C5: the reconciliation guard keeps the stored annotations element-wise
unchanged and appends exactly the freshly parsed entries beyond the stored
count when the parsed list is strictly longer, and returns the stored list
unchanged — discarding the parsed list entirely, whatever its entries —
when the parsed list is not longer. -/
theorem C5_reconciliation_policy (P N : List Json) :
    (N.length > P.length →
      reconcile_annotations P N = P ++ N.drop P.length ∧
      (reconcile_annotations P N).take P.length = P) ∧
    (N.length ≤ P.length → reconcile_annotations P N = P) := by
  constructor
  · intro hgt
    constructor
    · simp [reconcile_annotations, hgt]
    · simp [reconcile_annotations, hgt, List.take_left]
  · intro hle
    simp [reconcile_annotations, not_lt.2 hle]

/-- Witness for C5: two stored annotations against a drifted parse of the
same length (returned unchanged) and against a parse with one extra entry
(only the extra entry appended). -/
theorem C5_reconciliation_policy_witness :
    reconcile_annotations
        [.obj [("type", .str "rect"), ("rel_coords", .arr [.num (1/10), .num (1/10), .num (2/10), .num (2/10)])],
         .obj [("type", .str "line"), ("rel_coords", .arr [.num (3/10), .num (3/10), .num (4/10), .num (4/10)])]]
        [.obj [("type", .str "rect"), ("rel_coords", .arr [.num (101/1000), .num (1/10), .num (2/10), .num (2/10)])],
         .obj [("type", .str "line"), ("rel_coords", .arr [.num (3/10), .num (301/1000), .num (4/10), .num (4/10)])]] =
      [.obj [("type", .str "rect"), ("rel_coords", .arr [.num (1/10), .num (1/10), .num (2/10), .num (2/10)])],
       .obj [("type", .str "line"), ("rel_coords", .arr [.num (3/10), .num (3/10), .num (4/10), .num (4/10)])]] ∧
    reconcile_annotations
        [.obj [("type", .str "rect")], .obj [("type", .str "line")]]
        [.obj [("type", .str "rect")], .obj [("type", .str "line")], .obj [("type", .str "rect"), ("id", .int 3)]] =
      [.obj [("type", .str "rect")], .obj [("type", .str "line")]] ++
        [.obj [("type", .str "rect")], .obj [("type", .str "line")], .obj [("type", .str "rect"), ("id", .int 3)]].drop 2 :=
  ⟨(C5_reconciliation_policy _ _).2 (by decide),
   ((C5_reconciliation_policy _ _).1 (by decide)).1⟩

/-- C8: pixel_to_relative fails with the invalid-dimension error exactly on
a non-positive dimension and otherwise returns the ratios;
relative_to_pixel fails with the invalid-dimension error on a non-positive
dimension, with the out-of-range error on positive dimensions and a
relative coordinate outside [0,1], and otherwise returns the rounded
products. -/
theorem C8_scalar_transform_errors (x y rx ry : ℚ) (w h : ℤ) :
    ((w ≤ 0 ∨ h ≤ 0) →
      pixel_to_relative x y w h =
        .error (.invalidDimension "Canvas width and height must be positive values")) ∧
    (0 < w → 0 < h → pixel_to_relative x y w h = .ok (x / w, y / h)) ∧
    ((w ≤ 0 ∨ h ≤ 0) →
      relative_to_pixel rx ry w h =
        .error (.invalidDimension "Video width and height must be positive values")) ∧
    (0 < w → 0 < h → (¬(0 ≤ rx ∧ rx ≤ 1) ∨ ¬(0 ≤ ry ∧ ry ≤ 1)) →
      relative_to_pixel rx ry w h =
        .error (.outOfRange "Relative coordinates must be between 0.0 and 1.0")) ∧
    (0 < w → 0 < h → 0 ≤ rx → rx ≤ 1 → 0 ≤ ry → ry ≤ 1 →
      relative_to_pixel rx ry w h = .ok (pyRound (w * rx), pyRound (h * ry))) := by
  refine ⟨?_, ?_, ?_, ?_, ?_⟩
  · intro hdim
    simp [pixel_to_relative, hdim]
  · intro hw hh
    simp [pixel_to_relative, not_le.2 hw, not_le.2 hh]
  · intro hdim
    simp [relative_to_pixel, hdim]
  · intro hw hh hrange
    have hdim : ¬(w ≤ 0 ∨ h ≤ 0) := by
      push_neg
      exact ⟨hw, hh⟩
    rw [relative_to_pixel, if_neg hdim, if_pos hrange]
  · intro hw hh h1 h2 h3 h4
    simp [relative_to_pixel, not_le.2 hw, not_le.2 hh, h1, h2, h3, h4]

/-- Witness for C8: the invalid-dimension, out-of-range and success branches
at concrete inputs. -/
theorem C8_scalar_transform_errors_witness :
    pixel_to_relative 1 1 0 5 =
      .error (.invalidDimension "Canvas width and height must be positive values") ∧
    relative_to_pixel (3/2) (1/2) 10 10 =
      .error (.outOfRange "Relative coordinates must be between 0.0 and 1.0") ∧
    relative_to_pixel (1/2) (1/2) 10 10 = .ok (pyRound (10 * (1/2)), pyRound (10 * (1/2))) :=
  ⟨(C8_scalar_transform_errors 1 1 0 0 0 5).1 (Or.inl le_rfl),
   (C8_scalar_transform_errors 0 0 (3/2) (1/2) 10 10).2.2.2.1 (by decide) (by decide)
     (Or.inl (by norm_num)),
   (C8_scalar_transform_errors 0 0 (1/2) (1/2) 10 10).2.2.2.2 (by decide) (by decide)
     (by norm_num) (by norm_num) (by norm_num) (by norm_num)⟩

/-- C9 counterexample: the convenience forms do not enforce the scalar
preconditions — rect_to_pixel and arrow_to_pixel return values for an
out-of-range relative coordinate (2.0) and for a negative target dimension,
and rect_to_relative and arrow_to_relative return values for negative
canvas dimensions, in each case instead of the error the claim requires. -/
theorem C9_counterexample :
    rect_to_pixel [2, 0, 0, 0] 100 50 = .ok (200, 0, 0, 0) ∧
    arrow_to_pixel [2, 0, 0, 0] 100 50 = .ok (200, 0, 0, 0) ∧
    rect_to_pixel [1/2, 1/2, 1/2, 1/2] (-10) 5 = .ok (-5, 2, -5, 2) ∧
    rect_to_relative [1, 1, 1, 1] (-5) (-5) = .ok (-1/5, -1/5, -1/5, -1/5) ∧
    arrow_to_relative [1, 1, 1, 1] (-5) (-5) = .ok (-1/5, -1/5, -1/5, -1/5) := by
  refine ⟨?_, ?_, ?_, ?_, ?_⟩ <;> norm_num [rect_to_pixel, arrow_to_pixel, rect_to_relative,
    arrow_to_relative, pyRound]

/-- C9 amended: the convenience conversion forms validate only the tuple
length (a ValueError naming the expected 4-tuple otherwise); with 4
coordinates, rect_to_pixel and arrow_to_pixel return the rounded products
for any coordinates and any dimensions, and rect_to_relative and
arrow_to_relative fail only with ZeroDivisionError when a canvas dimension
is zero, returning the ratios for every non-zero dimension, negative ones
included; none of them signals the scalar transforms' InvalidDimension or
OutOfRange preconditions. -/
theorem C9_convenience_forms_amended (r1 r2 r3 r4 : ℚ) (w h : ℤ) (l : List ℚ) :
    rect_to_pixel [r1, r2, r3, r4] w h =
      .ok (pyRound (w * r1), pyRound (h * r2), pyRound (w * r3), pyRound (h * r4)) ∧
    arrow_to_pixel [r1, r2, r3, r4] w h =
      .ok (pyRound (w * r1), pyRound (h * r2), pyRound (w * r3), pyRound (h * r4)) ∧
    (l.length ≠ 4 → rect_to_pixel l w h =
      .error (.badLength "rel_coords must be a tuple of 4 floats (rx1, ry1, rx2, ry2)")) ∧
    (l.length ≠ 4 → arrow_to_pixel l w h =
      .error (.badLength "rel_coords must be a tuple of 4 floats (rx1, ry1, rx2, ry2)")) ∧
    ((w = 0 ∨ h = 0) → rect_to_relative [r1, r2, r3, r4] w h = .error .zeroDivision) ∧
    ((w = 0 ∨ h = 0) → arrow_to_relative [r1, r2, r3, r4] w h = .error .zeroDivision) ∧
    (w ≠ 0 → h ≠ 0 → rect_to_relative [r1, r2, r3, r4] w h =
      .ok (r1 / w, r2 / h, r3 / w, r4 / h)) ∧
    (w ≠ 0 → h ≠ 0 → arrow_to_relative [r1, r2, r3, r4] w h =
      .ok (r1 / w, r2 / h, r3 / w, r4 / h)) ∧
    (l.length ≠ 4 → rect_to_relative l w h =
      .error (.badLength "rect_coords must be a list of 4 integers [x1, y1, x2, y2]")) ∧
    (l.length ≠ 4 → arrow_to_relative l w h =
      .error (.badLength "arrow_coords must be a list of 4 integers [x1, y1, x2, y2]")) := by
  refine ⟨rfl, rfl, ?_, ?_, ?_, ?_, ?_, ?_, ?_, ?_⟩
  · intro h4
    unfold rect_to_pixel
    split
    · simp_all
    · rfl
  · intro h4
    unfold arrow_to_pixel
    split
    · simp_all
    · rfl
  · intro hz
    simp [rect_to_relative, hz]
  · intro hz
    simp [arrow_to_relative, hz]
  · intro hw hh
    simp [rect_to_relative, hw, hh]
  · intro hw hh
    simp [arrow_to_relative, hw, hh]
  · intro h4
    unfold rect_to_relative
    split
    · simp_all
    · rfl
  · intro h4
    unfold arrow_to_relative
    split
    · simp_all
    · rfl

/-- Witness for C9 amended: the length-error and zero-division branches at
concrete inputs. -/
theorem C9_convenience_forms_amended_witness :
    rect_to_pixel [1/2] 10 10 =
      .error (.badLength "rel_coords must be a tuple of 4 floats (rx1, ry1, rx2, ry2)") ∧
    rect_to_relative [1/2, 1/2, 1/2, 1/2] 0 10 = .error .zeroDivision ∧
    rect_to_relative [1/2, 1/2, 1/2, 1/2] 4 2 = .ok (1/2 / 4, 1/2 / 2, 1/2 / 4, 1/2 / 2) :=
  ⟨(C9_convenience_forms_amended 0 0 0 0 10 10 [1/2]).2.2.1 (by decide),
   (C9_convenience_forms_amended (1/2) (1/2) (1/2) (1/2) 0 10 []).2.2.2.2.1 (Or.inl rfl),
   (C9_convenience_forms_amended (1/2) (1/2) (1/2) (1/2) 4 2 []).2.2.2.2.2.2.1
     (by decide) (by decide)⟩

/-- C6: Tier A ingestion of a single id-1 timestamp-5 step with no video
duration is valid, cleans the step to empty title, empty description and
empty annotations, and warns only about the defaulted project_name; in
general the cleanup pass defaults an absent title or description to the
empty string with no warning and coerces a present non-string title or
description to its str() with a warning. -/
theorem C6_tier_a_defaults :
    (validate_gemini_json [("steps", .arr [.obj [("id", .int 1), ("timestamp", .int 5)]])]
        none).errors = [] ∧
    (validate_gemini_json [("steps", .arr [.obj [("id", .int 1), ("timestamp", .int 5)]])]
        none).is_valid = true ∧
    (validate_gemini_json [("steps", .arr [.obj [("id", .int 1), ("timestamp", .int 5)]])]
        none).warnings =
      ["project_name が欠落しています。「無題のプロジェクト」で補完します"] ∧
    lookup? (validate_gemini_json [("steps", .arr [.obj [("id", .int 1), ("timestamp", .int 5)]])]
        none).data "steps" =
      some (.arr [.obj [("id", .int 1), ("timestamp", .int 5), ("title", .str ""),
        ("description", .str ""), ("annotations", .arr [])]]) ∧
    (∀ (idx : Nat) (sid : Json) (kvs : List (String × Json)),
      (lookup? kvs "title" = none →
        lookup? (cleanStepFields idx sid kvs).1 "title" = some (.str "")) ∧
      (lookup? kvs "description" = none →
        lookup? (cleanStepFields idx sid kvs).1 "description" = some (.str "")) ∧
      (lookup? kvs "title" = none → lookup? kvs "description" = none →
        (cleanStepFields idx sid kvs).2 = []) ∧
      (∀ t, lookup? kvs "title" = some t → t.isStr = false →
        lookup? (cleanStepFields idx sid kvs).1 "title" = some (.str (pyStr t)) ∧
        stepTag idx sid ++ ": title は文字列である必要があります" ∈ (cleanStepFields idx sid kvs).2) ∧
      (∀ d, lookup? kvs "description" = some d → d.isStr = false →
        lookup? (cleanStepFields idx sid kvs).1 "description" = some (.str (pyStr d)) ∧
        stepTag idx sid ++ ": description は文字列である必要があります" ∈
          (cleanStepFields idx sid kvs).2)) := by
  refine ⟨rfl, rfl, rfl, rfl, ?_⟩
  intro idx sid kvs
  refine ⟨?_, ?_, ?_, ?_, ?_⟩
  · intro h
    have ht : titlePass idx sid kvs = (setKey kvs "title" (.str ""), []) := by
      simp [titlePass, h]
    rw [cleanStepFields]
    rw [annotationsDefault_lookup_ne _ _ (by decide),
      descPass_lookup_ne _ _ _ _ (by decide), ht]
    exact lookup_setKey_self kvs "title" (.str "")
  · intro h
    have hd' : lookup? (titlePass idx sid kvs).1 "description" = none :=
      (titlePass_lookup_ne idx sid kvs "description" (by decide)).trans h
    have hdp : descPass idx sid (titlePass idx sid kvs) =
        (setKey (titlePass idx sid kvs).1 "description" (.str ""),
         (titlePass idx sid kvs).2) := by
      simp [descPass, hd']
    rw [cleanStepFields]
    rw [annotationsDefault_lookup_ne _ _ (by decide), hdp]
    exact lookup_setKey_self _ "description" (.str "")
  · intro h1 h2
    have ht : titlePass idx sid kvs = (setKey kvs "title" (.str ""), []) := by
      simp [titlePass, h1]
    have hd' : lookup? (titlePass idx sid kvs).1 "description" = none :=
      (titlePass_lookup_ne idx sid kvs "description" (by decide)).trans h2
    rw [ht] at hd'
    simp only at hd'
    rw [cleanStepFields]
    simp [descPass, ht, hd']
  · intro t h hns
    have ht : titlePass idx sid kvs =
        (setKey kvs "title" (.str (pyStr t)),
         [stepTag idx sid ++ ": title は文字列である必要があります"]) := by
      simp [titlePass, h, hns]
    constructor
    · rw [cleanStepFields]
      rw [annotationsDefault_lookup_ne _ _ (by decide),
        descPass_lookup_ne _ _ _ _ (by decide), ht]
      exact lookup_setKey_self kvs "title" (.str (pyStr t))
    · rw [cleanStepFields]
      refine descPass_warn_mono idx sid _ _ ?_
      rw [ht]
      simp
  · intro d h hns
    have hd' : lookup? (titlePass idx sid kvs).1 "description" = some d :=
      (titlePass_lookup_ne idx sid kvs "description" (by decide)).trans h
    have hdp : descPass idx sid (titlePass idx sid kvs) =
        (setKey (titlePass idx sid kvs).1 "description" (.str (pyStr d)),
         (titlePass idx sid kvs).2 ++
           [stepTag idx sid ++ ": description は文字列である必要があります"]) := by
      simp [descPass, hd', hns]
    constructor
    · rw [cleanStepFields]
      rw [annotationsDefault_lookup_ne _ _ (by decide), hdp]
      exact lookup_setKey_self _ "description" (.str (pyStr d))
    · rw [cleanStepFields]
      rw [hdp]
      simp

/-- Witness for C6 at a step carrying a numeric title and no description. -/
theorem C6_tier_a_defaults_witness :
    lookup? (cleanStepFields 0 (.int 1) [("id", .int 1), ("timestamp", .int 5),
      ("title", .int 7)]).1 "title" = some (.str (pyStr (.int 7))) ∧
    stepTag 0 (.int 1) ++ ": title は文字列である必要があります" ∈
      (cleanStepFields 0 (.int 1) [("id", .int 1), ("timestamp", .int 5), ("title", .int 7)]).2 ∧
    lookup? (cleanStepFields 0 (.int 1) [("id", .int 1), ("timestamp", .int 5),
      ("title", .int 7)]).1 "description" = some (.str "") :=
  ⟨((C6_tier_a_defaults.2.2.2.2 0 (.int 1) [("id", .int 1), ("timestamp", .int 5),
      ("title", .int 7)]).2.2.2.1 (.int 7) rfl rfl).1,
   ((C6_tier_a_defaults.2.2.2.2 0 (.int 1) [("id", .int 1), ("timestamp", .int 5),
      ("title", .int 7)]).2.2.2.1 (.int 7) rfl rfl).2,
   (C6_tier_a_defaults.2.2.2.2 0 (.int 1) [("id", .int 1), ("timestamp", .int 5),
      ("title", .int 7)]).2.1 rfl⟩

/-- C1: in the Tier A per-step loop, a step with a missing, non-integer,
below-1 or already-seen id, or a missing, non-numeric or negative
timestamp, contributes nothing to the cleaned steps list and appends
exactly one fatal error, after which the loop continues with the next
step; for a duplicate id the first occurrence stays in the cleaned list
and the later duplicate is the one rejected, as on the concrete
two-step duplicate-id ingestion. -/
theorem C1_tier_a_step_rejection :
    (∀ (vd : Option ℚ) (idx : Nat) (acc : StepAcc) (kvs : List (String × Json)),
      (lookup? kvs "id" = none →
        processStep vd idx acc (.obj kvs) =
          { acc with errors := acc.errors ++
              ["steps[" ++ toString idx ++ "]: id フィールドが存在しません"] }) ∧
      (∀ sid, lookup? kvs "id" = some sid →
        ¬ (isInstInt sid = true ∧ 1 ≤ toIntVal sid) →
        processStep vd idx acc (.obj kvs) =
          { acc with errors := acc.errors ++
              ["steps[" ++ toString idx ++
               "]: id は1以上の整数である必要があります（現在値: " ++ pyStr sid ++ "）"] }) ∧
      (∀ sid, lookup? kvs "id" = some sid →
        isInstInt sid = true ∧ 1 ≤ toIntVal sid →
        toIntVal sid ∈ acc.seen →
        processStep vd idx acc (.obj kvs) =
          { acc with errors := acc.errors ++
              ["steps[" ++ toString idx ++ "]: id=" ++ pyStr sid ++ " が重複しています"] }) ∧
      (∀ sid, lookup? kvs "id" = some sid →
        isInstInt sid = true ∧ 1 ≤ toIntVal sid →
        toIntVal sid ∉ acc.seen →
        lookup? kvs "timestamp" = none →
        processStep vd idx acc (.obj kvs) =
          { acc with seen := acc.seen ++ [toIntVal sid],
                     errors := acc.errors ++
                       [stepTag idx sid ++ ": timestamp フィールドが存在しません"] }) ∧
      (∀ sid ts, lookup? kvs "id" = some sid →
        isInstInt sid = true ∧ 1 ≤ toIntVal sid →
        toIntVal sid ∉ acc.seen →
        lookup? kvs "timestamp" = some ts →
        isInstNumber ts = false →
        processStep vd idx acc (.obj kvs) =
          { acc with seen := acc.seen ++ [toIntVal sid],
                     errors := acc.errors ++
                       [stepTag idx sid ++ ": timestamp は数値である必要があります"] }) ∧
      (∀ sid ts, lookup? kvs "id" = some sid →
        isInstInt sid = true ∧ 1 ≤ toIntVal sid →
        toIntVal sid ∉ acc.seen →
        lookup? kvs "timestamp" = some ts →
        isInstNumber ts = true →
        toQ ts < 0 →
        processStep vd idx acc (.obj kvs) =
          { acc with seen := acc.seen ++ [toIntVal sid],
                     errors := acc.errors ++
                       [stepTag idx sid ++
                        ": timestamp は0以上である必要があります（現在値: " ++
                        pyStr ts ++ "）"] })) ∧
    (∀ (vd : Option ℚ) (idx : Nat) (acc : StepAcc) (s : Json) (rest : List Json),
      processStepsFrom vd idx acc (s :: rest) =
        processStepsFrom vd (idx + 1) (processStep vd idx acc s) rest) ∧
    (validate_gemini_json [("steps", .arr [.obj [("id", .int 1), ("timestamp", .int 5)],
        .obj [("id", .int 1), ("timestamp", .int 6)]])] none).errors =
      ["steps[1]: id=1 が重複しています"] ∧
    lookup? (validate_gemini_json [("steps", .arr [.obj [("id", .int 1), ("timestamp", .int 5)],
        .obj [("id", .int 1), ("timestamp", .int 6)]])] none).data "steps" =
      some (.arr [.obj [("id", .int 1), ("timestamp", .int 5), ("title", .str ""),
        ("description", .str ""), ("annotations", .arr [])]]) := by
  refine ⟨?_, fun vd idx acc s rest => rfl, rfl, rfl⟩
  intro vd idx acc kvs
  refine ⟨?_, ?_, ?_, ?_, ?_, ?_⟩
  · intro h
    simp [processStep, h]
  · intro sid h hbad
    simp [processStep, h, hbad]
  · intro sid h hgood hseen
    simp [processStep, h, hgood, hseen]
  · intro sid h hgood hseen hts
    simp [processStep, h, hgood, hseen, hts]
  · intro sid ts h hgood hseen hts htsnum
    simp [processStep, h, hgood, hseen, hts, htsnum]
  · intro sid ts h hgood hseen hts htsnum htneg
    simp [processStep, h, hgood, hseen, hts, htsnum, htneg]

lemma stepsOf_setKey (x : List (String × Json)) (y : List Json) :
    stepsOf (setKey x "steps" (.arr y)) = y := by
  simp [stepsOf, lookup_setKey_self]

lemma annsOf_setKey (kvs : List (String × Json)) (y : List Json) :
    annsOf (.obj (setKey kvs "annotations" (.arr y))) = y := by
  simp [annsOf, lookup_setKey_self]

lemma processAnn_kept (idx : Nat) (sid : Json) (annIdx : Nat) (a b : Json)
    (h : (processAnn idx sid annIdx a).1 = some b) : isPolygonAnn b = false := by
  cases a with
  | obj akvs =>
    rcases ht : lookup? akvs "type" with _ | tj
    · simp [processAnn, ht] at h
    · cases tj with
      | str t =>
        by_cases hmem : t ∈ VALID_ANNOTATION_TYPES
        · by_cases hpoly : t = "polygon"
          · simp [processAnn, ht, hmem, hpoly, VALID_ANNOTATION_TYPES] at h
          · rcases hrc : lookup? akvs "rel_coords" with _ | rc
            · simp [processAnn, ht, hmem, hpoly, hrc] at h
            · by_cases hv : (validate_rel_coords t rc).1 = true
              · simp [processAnn, ht, hmem, hpoly, hrc, hv] at h
                rw [← h]
                simp [isPolygonAnn, ht, hpoly]
              · simp [processAnn, ht, hmem, hpoly, hrc, hv] at h
        · simp [processAnn, ht, hmem] at h
      | null => simp [processAnn, ht] at h
      | bool b' => simp [processAnn, ht] at h
      | int n => simp [processAnn, ht] at h
      | num q => simp [processAnn, ht] at h
      | arr l => simp [processAnn, ht] at h
      | obj o => simp [processAnn, ht] at h
  | null => simp [processAnn] at h
  | bool b' => simp [processAnn] at h
  | int n => simp [processAnn] at h
  | num q => simp [processAnn] at h
  | str t => simp [processAnn] at h
  | arr l => simp [processAnn] at h

lemma processAnns_no_polygon (idx : Nat) (sid : Json) (l : List Json) :
    ∀ annIdx, ∀ b ∈ (processAnns idx sid annIdx l).1, isPolygonAnn b = false := by
  induction l with
  | nil => simp [processAnns]
  | cons a rest ih =>
    intro annIdx b hb
    simp only [processAnns, List.mem_append] at hb
    rcases hb with hb | hb
    · rcases hk : (processAnn idx sid annIdx a).1 with _ | c
      · simp [hk] at hb
      · simp [hk] at hb
        exact hb ▸ processAnn_kept idx sid annIdx a c hk
    · exact ih (annIdx + 1) b hb

lemma processSavedStep_no_polygon (idx : Nat) (s : Json) :
    ∀ b ∈ annsOf (processSavedStep idx s).1, isPolygonAnn b = false := by
  cases s with
  | obj kvs =>
    rcases ha : lookup? kvs "annotations" with _ | j
    · simp [processSavedStep, ha, annsOf_setKey]
    · cases j with
      | arr anns =>
        intro b hb
        rw [processSavedStep] at hb
        simp only [ha] at hb
        rw [annsOf_setKey] at hb
        exact processAnns_no_polygon idx (pyGet kvs "id") anns 0 b hb
      | null => simp [processSavedStep, ha, annsOf_setKey]
      | bool b' => simp [processSavedStep, ha, annsOf_setKey]
      | int n => simp [processSavedStep, ha, annsOf_setKey]
      | num q => simp [processSavedStep, ha, annsOf_setKey]
      | str t => simp [processSavedStep, ha, annsOf_setKey]
      | obj o => simp [processSavedStep, ha, annsOf_setKey]
  | null => simp [processSavedStep, annsOf]
  | bool b' => simp [processSavedStep, annsOf]
  | int n => simp [processSavedStep, annsOf]
  | num q => simp [processSavedStep, annsOf]
  | str t => simp [processSavedStep, annsOf]
  | arr l => simp [processSavedStep, annsOf]

lemma processSavedSteps_no_polygon (steps : List Json) :
    ∀ idx, ∀ s ∈ (processSavedSteps idx steps).1, ∀ b ∈ annsOf s, isPolygonAnn b = false := by
  induction steps with
  | nil => simp [processSavedSteps]
  | cons hd tl ih =>
    intro idx s hs
    simp only [processSavedSteps, List.mem_cons] at hs
    rcases hs with hs | hs
    · exact hs ▸ processSavedStep_no_polygon idx hd
    · exact ih (idx + 1) s hs

lemma validate_saved_json_steps (data : List (String × Json)) (vd : Option ℚ)
    (now : String) (h : (validate_gemini_json data vd).is_valid = true) :
    ∃ l, stepsOf (validate_saved_json data vd now).data = (processSavedSteps 0 l).1 := by
  simp only [validate_saved_json, h]
  simp only [not_true, if_false]
  exact ⟨_, stepsOf_setKey _ _⟩

/-- C2: the Tier B annotation loop drops every annotation typed "polygon"
with a warning, even though validate_rel_coords accepts a well-formed
polygon, so when Tier B's annotation validation runs (Tier A valid) no
step of the result carries a polygon annotation; on the concrete
ingestion the structurally valid polygon is dropped with exactly the
polygon warning. -/
theorem C2_polygon_dropped :
    (∀ (idx : Nat) (sid : Json) (annIdx : Nat) (akvs : List (String × Json)),
      lookup? akvs "type" = some (.str "polygon") →
      processAnn idx sid annIdx (.obj akvs) =
        (none, [annTag idx sid annIdx ++ " の polygon 注釈はサポート対象外のためスキップします"])) ∧
    (∀ (data : List (String × Json)) (vd : Option ℚ) (now : String),
      (validate_gemini_json data vd).is_valid = true →
      ∀ s ∈ stepsOf (validate_saved_json data vd now).data,
        ∀ a ∈ annsOf s, isPolygonAnn a = false) ∧
    validate_rel_coords "polygon"
      (.arr [.arr [.num (1/10), .num (1/10)], .arr [.num (2/10), .num (2/10)],
             .arr [.num (3/10), .num (1/10)]]) = (true, "") ∧
    (validate_saved_json [("project_name", .str "p"), ("steps", .arr
        [.obj [("id", .int 1), ("timestamp", .int 0), ("annotations", .arr
          [.obj [("type", .str "polygon"), ("rel_coords", .arr
            [.arr [.num (1/10), .num (1/10)], .arr [.num (2/10), .num (2/10)],
             .arr [.num (3/10), .num (1/10)]])]])]])] none "T").errors = [] ∧
    (validate_saved_json [("project_name", .str "p"), ("steps", .arr
        [.obj [("id", .int 1), ("timestamp", .int 0), ("annotations", .arr
          [.obj [("type", .str "polygon"), ("rel_coords", .arr
            [.arr [.num (1/10), .num (1/10)], .arr [.num (2/10), .num (2/10)],
             .arr [.num (3/10), .num (1/10)]])]])]])] none "T").warnings =
      ["steps[0] (id=1): annotations[0] の polygon 注釈はサポート対象外のためスキップします"] ∧
    (stepsOf (validate_saved_json [("project_name", .str "p"), ("steps", .arr
        [.obj [("id", .int 1), ("timestamp", .int 0), ("annotations", .arr
          [.obj [("type", .str "polygon"), ("rel_coords", .arr
            [.arr [.num (1/10), .num (1/10)], .arr [.num (2/10), .num (2/10)],
             .arr [.num (3/10), .num (1/10)]])]])]])] none "T").data).map annsOf =
      [[]] := by
  refine ⟨?_, ?_, by with_unfolding_all rfl, rfl, rfl, rfl⟩
  · intro idx sid annIdx akvs h
    have hmem : "polygon" ∈ VALID_ANNOTATION_TYPES := by decide
    simp [processAnn, h, hmem]
  · intro data vd now hvalid s hs a ha
    obtain ⟨l, hl⟩ := validate_saved_json_steps data vd now hvalid
    rw [hl] at hs
    exact processSavedSteps_no_polygon l 0 s hs a ha

/-- Witness for C2: the polygon-drop branch at a concrete annotation, and
the no-polygon invariant read off a concrete valid Tier B ingestion that
keeps a rect annotation. -/
theorem C2_polygon_dropped_witness :
    processAnn 0 (.int 1) 0 (.obj [("type", .str "polygon"), ("rel_coords", .arr
        [.arr [.num (1/10), .num (1/10)], .arr [.num (2/10), .num (2/10)],
         .arr [.num (3/10), .num (1/10)]])]) =
      (none, [annTag 0 (.int 1) 0 ++ " の polygon 注釈はサポート対象外のためスキップします"]) ∧
    isPolygonAnn (.obj [("type", .str "rect"), ("rel_coords", .arr
      [.num (1/10), .num (1/10), .num (2/10), .num (2/10)])]) = false :=
  ⟨C2_polygon_dropped.1 0 (.int 1) 0 [("type", .str "polygon"), ("rel_coords", .arr
      [.arr [.num (1/10), .num (1/10)], .arr [.num (2/10), .num (2/10)],
       .arr [.num (3/10), .num (1/10)]])] rfl,
   C2_polygon_dropped.2.1 [("project_name", .str "p"), ("steps", .arr
      [.obj [("id", .int 1), ("timestamp", .int 0), ("annotations", .arr
        [.obj [("type", .str "rect"), ("rel_coords", .arr
          [.num (1/10), .num (1/10), .num (2/10), .num (2/10)])]])]])] none "T" rfl
     (.obj [("id", .int 1), ("timestamp", .int 0), ("annotations", .arr
        [.obj [("type", .str "rect"), ("rel_coords", .arr
          [.num (1/10), .num (1/10), .num (2/10), .num (2/10)])]]),
        ("title", .str ""), ("description", .str "")])
     (by
       rw [show stepsOf (validate_saved_json [("project_name", .str "p"), ("steps", .arr
          [.obj [("id", .int 1), ("timestamp", .int 0), ("annotations", .arr
            [.obj [("type", .str "rect"), ("rel_coords", .arr
              [.num (1/10), .num (1/10), .num (2/10), .num (2/10)])]])]])] none "T").data =
          [.obj [("id", .int 1), ("timestamp", .int 0), ("annotations", .arr
            [.obj [("type", .str "rect"), ("rel_coords", .arr
              [.num (1/10), .num (1/10), .num (2/10), .num (2/10)])]]),
            ("title", .str ""), ("description", .str "")]] by with_unfolding_all rfl]
       exact List.Mem.head _)
     (.obj [("type", .str "rect"), ("rel_coords", .arr
        [.num (1/10), .num (1/10), .num (2/10), .num (2/10)])])
     (by
       rw [show annsOf (.obj [("id", .int 1), ("timestamp", .int 0), ("annotations", .arr
            [.obj [("type", .str "rect"), ("rel_coords", .arr
              [.num (1/10), .num (1/10), .num (2/10), .num (2/10)])]]),
            ("title", .str ""), ("description", .str "")]) =
          [.obj [("type", .str "rect"), ("rel_coords", .arr
            [.num (1/10), .num (1/10), .num (2/10), .num (2/10)])]] from rfl]
       exact List.Mem.head _)⟩

/-- C7 counterexample: validate_all_timestamps does not exclude a step
whose id is present but non-numeric — a step with id "abc" and timestamp
10 against duration 5 contributes its string id to the result, where the
claim requires the step to be silently excluded. -/
theorem C7_counterexample :
    validate_all_timestamps [.obj [("id", .str "abc"), ("timestamp", .int 10)]] 5 =
      [.str "abc"] ∧
    validate_all_timestamps [.obj [("id", .str "abc"), ("timestamp", .int 10)]] 5 ≠ [] := by
  constructor
  · rfl
  · rw [show validate_all_timestamps [.obj [("id", .str "abc"), ("timestamp", .int 10)]] 5 =
      [Json.str "abc"] from rfl]
    simp

/-- C7 amended: validate_all_timestamps returns, in input order, the id
value of every dict step whose id and timestamp are both present and
non-null and whose timestamp is numeric and exceeds the duration; a
non-dict step, a missing or null id or timestamp, or a non-numeric
timestamp silently excludes the step, but a present non-null id is
included by value whatever its type; on the spec's concrete example the
result is [1]. -/
theorem C7_timestamp_checker_amended :
    (∀ (s : Json) (rest : List Json) (d : ℚ),
      (s.isDict = false →
        validate_all_timestamps (s :: rest) d = validate_all_timestamps rest d) ∧
      (∀ kvs, s = .obj kvs →
        ((pyGet kvs "id").isNull = true ∨ (pyGet kvs "timestamp").isNull = true) →
        validate_all_timestamps (s :: rest) d = validate_all_timestamps rest d) ∧
      (∀ kvs, s = .obj kvs →
        (pyGet kvs "id").isNull = false →
        (pyGet kvs "timestamp").isNull = false →
        ¬ (isInstNumber (pyGet kvs "timestamp") = true ∧ toQ (pyGet kvs "timestamp") > d) →
        validate_all_timestamps (s :: rest) d = validate_all_timestamps rest d) ∧
      (∀ kvs, s = .obj kvs →
        (pyGet kvs "id").isNull = false →
        (pyGet kvs "timestamp").isNull = false →
        isInstNumber (pyGet kvs "timestamp") = true →
        toQ (pyGet kvs "timestamp") > d →
        validate_all_timestamps (s :: rest) d =
          pyGet kvs "id" :: validate_all_timestamps rest d)) ∧
    validate_all_timestamps [.obj [("id", .int 1), ("timestamp", .int 10)],
      .obj [("id", .int 2), ("timestamp", .int 3)]] 5 = [.int 1] := by
  refine ⟨?_, rfl⟩
  intro s rest d
  refine ⟨?_, ?_, ?_, ?_⟩
  · intro h
    cases s with
    | obj kvs => simp [Json.isDict] at h
    | null => simp [validate_all_timestamps]
    | bool b => simp [validate_all_timestamps]
    | int n => simp [validate_all_timestamps]
    | num q => simp [validate_all_timestamps]
    | str t => simp [validate_all_timestamps]
    | arr l => simp [validate_all_timestamps]
  · rintro kvs rfl h
    simp [validate_all_timestamps, h]
  · rintro kvs rfl h1 h2 h3
    simp [validate_all_timestamps, h1, h2, h3]
  · rintro kvs rfl h1 h2 h3 h4
    simp [validate_all_timestamps, h1, h2, h3, h4]

/-- Witness for C7 amended: the exceeding and non-exceeding branches at
concrete steps. -/
theorem C7_timestamp_checker_amended_witness :
    validate_all_timestamps [.obj [("id", .int 1), ("timestamp", .int 10)]] 5 =
      pyGet [("id", .int 1), ("timestamp", .int 10)] "id" :: validate_all_timestamps [] 5 ∧
    validate_all_timestamps [.obj [("id", .int 2), ("timestamp", .int 3)]] 5 =
      validate_all_timestamps [] 5 :=
  ⟨(C7_timestamp_checker_amended.1 (.obj [("id", .int 1), ("timestamp", .int 10)]) [] 5).2.2.2
     [("id", .int 1), ("timestamp", .int 10)] rfl rfl rfl rfl (by decide),
   (C7_timestamp_checker_amended.1 (.obj [("id", .int 2), ("timestamp", .int 3)]) [] 5).2.2.1
     [("id", .int 2), ("timestamp", .int 3)] rfl rfl rfl (by decide)⟩

/-- C10: in Tier B, a step whose annotations field is present but not a
list gets a fatal error appended (the result's validity flag becomes
false) and the field replaced by the empty list, while a malformed
individual annotation element yields only a warning; on the concrete
ingestion the non-list annotations step produces the sole error and the
non-object annotation element produces the sole warning. -/
theorem C10_nonlist_annotations_fatal :
    (∀ (idx : Nat) (kvs : List (String × Json)) (j : Json),
      lookup? kvs "annotations" = some j →
      (∀ l, j ≠ .arr l) →
      processSavedStep idx (.obj kvs) =
        (.obj (setKey kvs "annotations" (.arr [])),
         [stepTag idx (pyGet kvs "id") ++ ": annotations はリストである必要があります"], [])) ∧
    (∀ (idx : Nat) (sid : Json) (annIdx : Nat) (a : Json),
      a.isDict = false →
      processAnn idx sid annIdx a =
        (none, [annTag idx sid annIdx ++ " はオブジェクトである必要があります。スキップします"])) ∧
    (validate_saved_json [("project_name", .str "p"), ("steps", .arr
        [.obj [("id", .int 1), ("timestamp", .int 0), ("annotations", .str "bad")],
         .obj [("id", .int 2), ("timestamp", .int 0), ("annotations", .arr [.int 5])]])]
        none "T").errors = ["steps[0] (id=1): annotations はリストである必要があります"] ∧
    (validate_saved_json [("project_name", .str "p"), ("steps", .arr
        [.obj [("id", .int 1), ("timestamp", .int 0), ("annotations", .str "bad")],
         .obj [("id", .int 2), ("timestamp", .int 0), ("annotations", .arr [.int 5])]])]
        none "T").is_valid = false ∧
    (validate_saved_json [("project_name", .str "p"), ("steps", .arr
        [.obj [("id", .int 1), ("timestamp", .int 0), ("annotations", .str "bad")],
         .obj [("id", .int 2), ("timestamp", .int 0), ("annotations", .arr [.int 5])]])]
        none "T").warnings =
      ["steps[1] (id=2): annotations[0] はオブジェクトである必要があります。スキップします"] ∧
    (stepsOf (validate_saved_json [("project_name", .str "p"), ("steps", .arr
        [.obj [("id", .int 1), ("timestamp", .int 0), ("annotations", .str "bad")],
         .obj [("id", .int 2), ("timestamp", .int 0), ("annotations", .arr [.int 5])]])]
        none "T").data).map annsOf = [[], []] := by
  refine ⟨?_, ?_, rfl, rfl, rfl, rfl⟩
  · intro idx kvs j hj hne
    cases j with
    | arr l => exact absurd rfl (hne l)
    | null => simp [processSavedStep, hj]
    | bool b => simp [processSavedStep, hj]
    | int n => simp [processSavedStep, hj]
    | num q => simp [processSavedStep, hj]
    | str s => simp [processSavedStep, hj]
    | obj o => simp [processSavedStep, hj]
  · intro idx sid annIdx a h
    cases a with
    | obj kvs => simp [Json.isDict] at h
    | null => simp [processAnn]
    | bool b => simp [processAnn]
    | int n => simp [processAnn]
    | num q => simp [processAnn]
    | str t => simp [processAnn]
    | arr l => simp [processAnn]

/-- Witness for C10: the non-list branch and the non-object element branch
at concrete inputs. -/
theorem C10_nonlist_annotations_fatal_witness :
    processSavedStep 0 (.obj [("id", .int 1), ("annotations", .str "x")]) =
      (.obj (setKey [("id", .int 1), ("annotations", .str "x")] "annotations" (.arr [])),
       [stepTag 0 (pyGet [("id", .int 1), ("annotations", .str "x")] "id") ++
        ": annotations はリストである必要があります"], []) ∧
    processAnn 0 (.int 1) 0 (.str "oops") =
      (none, [annTag 0 (.int 1) 0 ++ " はオブジェクトである必要があります。スキップします"]) :=
  ⟨C10_nonlist_annotations_fatal.1 0 [("id", .int 1), ("annotations", .str "x")]
     (.str "x") rfl (fun _ h => Json.noConfusion h),
   C10_nonlist_annotations_fatal.2.1 0 (.int 1) 0 (.str "oops") rfl⟩

/-- C4: validate_rel_coords rejects a kind outside the closed set with a
message naming that set, rejects a non-sequence coords value, accepts
rect/line exactly on 4-element all-in-range numeric lists and polygon
exactly on lists of at least 3 well-formed points, and otherwise
short-circuits at the first failing element (or point, or point
coordinate) with a message indexing that element. -/
theorem C4_annotation_validator_spec (kind : String) (coords : Json) :
    (kind ∉ VALID_ANNOTATION_TYPES →
      validate_rel_coords kind coords =
        (false, "Invalid annotation type: " ++ kind ++ ". Must be one of " ++ validTypesStr)) ∧
    (kind ∈ VALID_ANNOTATION_TYPES → (∀ cs, coords ≠ .arr cs) →
      validate_rel_coords kind coords =
        (false, "coords must be a list or tuple, got " ++ pyTypeName coords)) ∧
    ((kind = "rect" ∨ kind = "line") → ∀ cs, coords = .arr cs →
      (validate_rel_coords kind coords = (true, "") ↔
        cs.length = 4 ∧ ∀ v ∈ cs, _is_valid_relative_value v = true)) ∧
    ((kind = "rect" ∨ kind = "line") → ∀ cs, coords = .arr cs → cs.length ≠ 4 →
      validate_rel_coords kind coords =
        (false, kind ++ " requires exactly 4 coordinates, got " ++ toString cs.length)) ∧
    ((kind = "rect" ∨ kind = "line") → ∀ pre v post,
      coords = .arr (pre ++ v :: post) →
      (pre ++ v :: post).length = 4 →
      (∀ u ∈ pre, _is_valid_relative_value u = true) →
      _is_valid_relative_value v = false →
      validate_rel_coords kind coords = (false, flatBadMsg pre.length v)) ∧
    (kind = "polygon" → ∀ cs, coords = .arr cs →
      (validate_rel_coords kind coords = (true, "") ↔
        3 ≤ cs.length ∧ ∀ p ∈ cs, goodPoint p = true)) ∧
    (kind = "polygon" → ∀ cs, coords = .arr cs → cs.length < 3 →
      validate_rel_coords kind coords =
        (false, "polygon requires at least 3 points, got " ++ toString cs.length)) ∧
    (kind = "polygon" → ∀ pre p post,
      coords = .arr (pre ++ p :: post) →
      3 ≤ (pre ++ p :: post).length →
      (∀ q ∈ pre, goodPoint q = true) →
      goodPoint p = false →
      validate_rel_coords kind coords = (false, polyBadMsg pre.length p)) ∧
    (∀ (i j : Nat) (preJ postJ : List Json) (w : Json),
      (∀ u ∈ preJ, _is_valid_relative_value u = true) →
      _is_valid_relative_value w = false →
      checkPointVals i j (preJ ++ w :: postJ) = (false, pointBadMsg i (j + preJ.length) w)) := by
  refine ⟨?_, ?_, ?_, ?_, ?_, ?_, ?_, ?_, ?_⟩
  · intro h
    simp [validate_rel_coords, h]
  · intro hmem hne
    cases coords with
    | arr cs => exact absurd rfl (hne cs)
    | null => simp [validate_rel_coords, hmem]
    | bool b => simp [validate_rel_coords, hmem]
    | int n => simp [validate_rel_coords, hmem]
    | num q => simp [validate_rel_coords, hmem]
    | str t => simp [validate_rel_coords, hmem]
    | obj o => simp [validate_rel_coords, hmem]
  · rintro (rfl | rfl) cs rfl <;>
    · by_cases hlen : cs.length = 4
      · simp [validate_rel_coords, VALID_ANNOTATION_TYPES, hlen]
        rw [checkFlat_eq_ok_iff]
      · simp [validate_rel_coords, VALID_ANNOTATION_TYPES, hlen]
  · rintro (rfl | rfl) cs rfl hlen <;>
      simp [validate_rel_coords, VALID_ANNOTATION_TYPES, hlen]
  · rintro (rfl | rfl) pre v post rfl hlen hpre hbad <;>
    · have h4 : ¬ (pre ++ v :: post).length ≠ 4 := by omega
      simp only [validate_rel_coords, VALID_ANNOTATION_TYPES]
      rw [if_neg (by simp), if_pos (by simp), if_neg h4,
        checkFlat_append_good 0 pre (v :: post) hpre, checkFlat_bad_head _ v post hbad]
      simp
  · rintro rfl cs rfl
    by_cases hlen : cs.length < 3
    · have hv : validate_rel_coords "polygon" (.arr cs) =
          (false, "polygon requires at least 3 points, got " ++ toString cs.length) := by
        simp [validate_rel_coords, VALID_ANNOTATION_TYPES, hlen]
      rw [hv]
      constructor
      · intro h
        exact absurd h (by simp)
      · rintro ⟨h3, _⟩
        omega
    · have hv : validate_rel_coords "polygon" (.arr cs) = checkPoly 0 cs := by
        simp [validate_rel_coords, VALID_ANNOTATION_TYPES, hlen]
      rw [hv, checkPoly_eq_ok_iff]
      constructor
      · intro h
        exact ⟨by omega, h⟩
      · exact fun h => h.2
  · rintro rfl cs rfl hlen
    simp [validate_rel_coords, VALID_ANNOTATION_TYPES, hlen]
  · rintro rfl pre p post rfl hlen hpre hbad
    have h3 : ¬ (pre ++ p :: post).length < 3 := by omega
    simp only [validate_rel_coords, VALID_ANNOTATION_TYPES]
    rw [if_pos trivial, if_neg h3,
      checkPoly_append_good 0 pre (p :: post) hpre, checkPoly_bad_head _ p post hbad]
    simp
  · intro i j preJ postJ w hpre hbad
    rw [checkPointVals_append_good i j preJ (w :: postJ) hpre,
      checkPointVals_bad_head i (j + preJ.length) w postJ hbad]

/-- Witness for C4: the unknown-kind, non-sequence, rect short-circuit,
rect success and polygon point short-circuit branches at concrete inputs. -/
theorem C4_annotation_validator_spec_witness :
    validate_rel_coords "circle" (.arr []) =
      (false, "Invalid annotation type: " ++ "circle" ++ ". Must be one of " ++ validTypesStr) ∧
    validate_rel_coords "rect" (.str "x") =
      (false, "coords must be a list or tuple, got " ++ pyTypeName (.str "x")) ∧
    validate_rel_coords "rect" (.arr [.num 0, .str "a", .num 0, .num 0]) =
      (false, flatBadMsg [Json.num 0].length (.str "a")) ∧
    validate_rel_coords "rect" (.arr [.num 0, .num 1, .int 0, .int 1]) =
      (true, "") ∧
    validate_rel_coords "polygon"
        (.arr [.arr [.num 0, .num 0], .arr [.num 0, .num 2], .arr [.num 1, .num 1]]) =
      (false, polyBadMsg [Json.arr [.num 0, .num 0]].length (.arr [.num 0, .num 2])) :=
  ⟨(C4_annotation_validator_spec "circle" (.arr [])).1 (by decide),
   (C4_annotation_validator_spec "rect" (.str "x")).2.1 (by decide)
     (fun _ h => Json.noConfusion h),
   (C4_annotation_validator_spec "rect" (.arr [.num 0, .str "a", .num 0, .num 0])).2.2.2.2.1
     (Or.inl rfl) [.num 0] (.str "a") [.num 0, .num 0] rfl (by decide)
     (by decide) (by decide),
   ((C4_annotation_validator_spec "rect"
       (.arr [.num 0, .num 1, .int 0, .int 1])).2.2.1
     (Or.inl rfl) _ rfl).2 ⟨by decide, by decide⟩,
   (C4_annotation_validator_spec "polygon"
       (.arr [.arr [.num 0, .num 0], .arr [.num 0, .num 2], .arr [.num 1, .num 1]])).2.2.2.2.2.2.2.1
     rfl [.arr [.num 0, .num 0]] (.arr [.num 0, .num 2]) [.arr [.num 1, .num 1]] rfl
     (by decide) (by decide) (by decide)⟩

/-- Witness for C1: the duplicate-id branch applied at a concrete
accumulator that has already seen id 1. -/
theorem C1_tier_a_step_rejection_witness :
    processStep none 1 ⟨[1], [], [], []⟩ (.obj [("id", .int 1), ("timestamp", .int 6)]) =
      ⟨[1], [], ["steps[1]: id=1 が重複しています"], []⟩ := by
  have := ((C1_tier_a_step_rejection.1 none 1 ⟨[1], [], [], []⟩
    [("id", .int 1), ("timestamp", .int 6)]).2.2.1 (.int 1) rfl
    (by constructor <;> decide) (by decide))
  simpa using this

end M2M
